import Mathlib

/-!
Shallow embedding of the auto-approve bot (src/bot.py) and proofs of the
spec's testable properties.

The embedding models:
* the persisted store (module-level DATA, line 72): promotion text plus a
  string-keyed, insertion-ordered mapping from chat id to chat entry;
* the persist stage of the join-request handler (lines 255-271);
* the notification stage (lines 281-298): DM attempt guarded by a truthy
  user id, with the public-mention fallback when the DM failed or was
  skipped;
* save_data (lines 99-104), whose write failure is caught and logged;
* the broadcast command (lines 201-227): recipient collection into a set
  and the sequential send loop tallying successes and failures;
* the supervisory retry loop of main (lines 354-391) with its doubling,
  capped backoff;
* load_data (lines 81-96) over a small model of decoded JSON values,
  including the Python semantics of the key-membership test and of item
  assignment that the normalization lines 89-92 rely on.

Machine integers of the source are modelled as Int (Telegram ids), with the
Python truthiness test of lines 261/282 rendered as comparison with 0.
-/

/-- One element of a chat entry's users list
(appended at line 262: id, full_name, username, approved_at). -/
structure UserRec where
  id : Int
  full_name : String
  username : Option String
  approved_at : String
deriving DecidableEq

/-- One value of DATA["chats"]: title plus the users list (line 258). -/
structure ChatEntry where
  title : String
  users : List UserRec
deriving DecidableEq

/-- The module-level DATA dict (line 72): promotion text plus the chats
mapping. Python dicts preserve insertion order, so the mapping is an
insertion-ordered association list keyed by str(chat_id). -/
structure Store where
  promotion_message : String
  chats : List (String × ChatEntry)
deriving DecidableEq

/-- The initial DATA value (line 72). -/
def emptyStore : Store := { promotion_message := "", chats := [] }

/-- The fields of a join request the handler reads (lines 244-252).
user_id is 0 when the update carries no user (line 249), chat_id is 0 when
it carries no chat (line 250) — Telegram's real ids are nonzero. -/
structure JoinReq where
  user_id : Int
  full_name : String
  username : Option String
  chat_id : Int
  channel_title : String
  approved_at : String
deriving DecidableEq

/-- The str(chat_id) dictionary key of line 258. -/
def chatKey (r : JoinReq) : String := toString r.chat_id

/-- The user dict appended at line 262. -/
def mkRec (r : JoinReq) : UserRec :=
  { id := r.user_id, full_name := r.full_name, username := r.username,
    approved_at := r.approved_at }

/-- Dictionary lookup in DATA["chats"]. -/
def lookupChat (s : Store) (key : String) : Option ChatEntry :=
  (s.chats.find? (fun kv => kv.1 == key)).map (fun kv => kv.2)

/-- The users list of a chat entry, [] when the key is absent. -/
def usersOf (s : Store) (key : String) : List UserRec :=
  ((lookupChat s key).map (fun e => e.users)).getD []

/-- The title of a chat entry, none when the key is absent. -/
def titleOf (s : Store) (key : String) : Option String :=
  (lookupChat s key).map (fun e => e.title)

/-- Writing an entry back into DATA["chats"]. Python's setdefault (line
258) installs the fresh entry at the end of the dict when the key is
absent, and later statements mutate the stored entry through the returned
alias; the net effect is that the key maps to the final entry, with its
dict position preserved when it already existed. -/
def setChat (s : Store) (key : String) (e : ChatEntry) : Store :=
  match s.chats.find? (fun kv => kv.1 == key) with
  | some _ =>
    { s with chats := s.chats.map (fun kv => if kv.1 == key then (kv.1, e) else kv) }
  | none => { s with chats := s.chats ++ [(key, e)] }

/-- The persist stage of handle_join_request (lines 255-271; the DATA_LOCK
branch and the fallback branch run the same statements).
setdefault (line 258) fetches the entry or installs a fresh one; line 259
overwrites its title; line 260 tests whether the id is already present;
lines 261-262 append the new record only when it is absent and the id is
truthy. Returns the updated store and whether a record was appended. -/
def persistStep (s : Store) (r : JoinReq) : Store × Bool :=
  let key := chatKey r
  let entry0 : ChatEntry :=
    match lookupChat s key with
    | some e => e
    | none => { title := r.channel_title, users := [] }
  let entry1 := { entry0 with title := r.channel_title }
  let ex := entry1.users.any (fun u => u.id == r.user_id)
  let inserted := !ex && !(r.user_id == 0)
  let entry2 :=
    if inserted then { entry1 with users := entry1.users ++ [mkRec r] } else entry1
  (setChat s key entry2, inserted)

/-- The entry stored at the request's key after the persist stage. -/
def entryAfter (s : Store) (r : JoinReq) : ChatEntry :=
  if !((usersOf s (chatKey r)).any (fun u => u.id == r.user_id))
       && !(r.user_id == 0)
  then { title := r.channel_title, users := usersOf s (chatKey r) ++ [mkRec r] }
  else { title := r.channel_title, users := usersOf s (chatKey r) }

/-- Folding a whole sequence of join requests through the persist stage. -/
def applyAll (s : Store) (reqs : List JoinReq) : Store :=
  reqs.foldl (fun st r => (persistStep st r).1) s

/-- Number of records carrying a given id in a users list. -/
def countId (l : List UserRec) (i : Int) : Nat :=
  l.countP (fun u => u.id == i)

/-- Observable outcome of one run of handle_join_request (lines 233-298)
for a single inbound request, parametrised by what the gateway does:
approveOk is whether approve_chat_join_request (line 240) succeeds, and
dmSendOk whether the direct send of line 284 succeeds.
The approval call sits in its own try/except (lines 239-242) whose handler
only logs a warning, so the pipeline continues either way; the persist
stage (lines 255-271) always runs and always calls save_data; the DM (line
284) is attempted only when user_id is truthy (line 282), and the public
mention fallback (lines 290-298) is posted exactly once when the DM failed
or was skipped; the fallback's own send error is caught at line 297. -/
structure PipelineResult where
  store : Store
  inserted : Bool
  saveAttempted : Bool
  approveErrorLogged : Bool
  dmAttempted : Bool
  dm_ok : Bool
  fallbackCount : Nat
deriving DecidableEq

def handle_join_request (s : Store) (r : JoinReq) (approveOk dmSendOk : Bool) :
    PipelineResult :=
  let approveErrorLogged := !approveOk
  let pr := persistStep s r
  let dmAttempted := !(r.user_id == 0)
  let dm_ok := dmAttempted && dmSendOk
  { store := pr.1, inserted := pr.2, saveAttempted := true,
    approveErrorLogged := approveErrorLogged,
    dmAttempted := dmAttempted, dm_ok := dm_ok,
    fallbackCount := if dm_ok then 0 else 1 }

/-- save_data (lines 99-104): the json.dump may raise; the exception is
caught and logged, nothing propagates. diskOk says whether the write
succeeds; the first component is what reached the file (none: the write
failed), the second whether a failure was logged. -/
def save_data (s : Store) (diskOk : Bool) : Option Store × Bool :=
  (if diskOk then some s else none, !diskOk)

/-- A store mutation through the join-request persist stage followed by
save_data, the shape of lines 255-263. Returns the in-memory state and the
save outcome. -/
def recordJoinAndSave (s : Store) (r : JoinReq) (diskOk : Bool) :
    Store × (Option Store × Bool) :=
  let s' := (persistStep s r).1
  (s', save_data s' diskOk)

/-- The promotion-command mutation followed by save_data (lines 182-188). -/
def setPromotionAndSave (s : Store) (msg : String) (diskOk : Bool) :
    Store × (Option Store × Bool) :=
  let s' := { s with promotion_message := msg }
  (s', save_data s' diskOk)

/-- Adding one user id to the broadcast recipient set (line 208). The
Python set is modelled as a duplicate-free list in first-insertion order;
no property proved here depends on the set's iteration order. The
isinstance(uid, int) guard of line 207 is always true in the model, where
every stored id is an Int. -/
def addRecipient (acc : List Int) (uid : Int) : List Int :=
  if uid ∈ acc then acc else acc ++ [uid]

/-- The inner loop of lines 205-208 over one chat's users. -/
def collectFromUsers (acc : List Int) (users : List UserRec) : List Int :=
  users.foldl (fun a u => addRecipient a u.id) acc

/-- The outer loop of lines 204-208 over all chats. -/
def collectFromChats (acc : List Int) (chats : List (String × ChatEntry)) : List Int :=
  chats.foldl (fun a kv => collectFromUsers a kv.2.users) acc

/-- The recipient set of broadcast_cmd (lines 203-208). -/
def collectRecipients (s : Store) : List Int :=
  collectFromChats [] s.chats

/-- One iteration of the send loop (lines 220-226): the send either
succeeds (sent += 1) or raises, is caught, and failed += 1. -/
def tallyStep (sendOk : Int → Bool) (p : Nat × Nat) (uid : Int) : Nat × Nat :=
  if sendOk uid then (p.1 + 1, p.2) else (p.1, p.2 + 1)

/-- The send loop of broadcast_cmd (lines 218-227), parametrised by which
recipients' sends succeed. Returns (sent, failed). -/
def broadcast_cmd (s : Store) (sendOk : Int → Bool) : Nat × Nat :=
  (collectRecipients s).foldl (tallyStep sendOk) (0, 0)

/-- Outcome of one app.run_polling invocation in main's retry loop
(lines 356-391): clean return (line 362 breaks), tg_error.Conflict
(line 363), or any other exception (line 379). -/
inductive PollOutcome where
  | clean
  | conflict
  | fault
deriving DecidableEq

/-- The successive time.sleep(backoff) intervals of main's loop
(lines 377, 390) for a given sequence of run_polling outcomes, starting
from the current backoff value: a clean exit breaks out of the loop; both
fault branches sleep the current backoff and then set
backoff = min(backoff * 2, 120) (lines 378, 391). -/
def runnerSleeps : List PollOutcome → Nat → List Nat
  | [], _ => []
  | (PollOutcome.clean :: _), _ => []
  | (PollOutcome.conflict :: rest), b => b :: runnerSleeps rest (min (b * 2) 120)
  | (PollOutcome.fault :: rest), b => b :: runnerSleeps rest (min (b * 2) 120)

/-- main starts with backoff = 5 (line 355). -/
def mainSleeps (outcomes : List PollOutcome) : List Nat :=
  runnerSleeps outcomes 5

/-- Decoded JSON values, for modelling load_data (lines 81-96). -/
inductive JsonVal where
  | null
  | bool (b : Bool)
  | num (n : Int)
  | str (s : String)
  | arr (xs : List JsonVal)
  | obj (kvs : List (String × JsonVal))

/-- Python substring containment, the semantics of the operator "in" on a
str: splitting on a nonempty pattern yields more than one part exactly
when the pattern occurs. -/
def strContains (s pat : String) : Bool :=
  (s.splitOn pat).length != 1

/-- Python's containment test "key in DATA" (lines 89, 91) on a decoded
value: key membership for a dict, element equality for a list (a str
element equals the key only if it is that string), substring test for a
str, and a TypeError (none) for every other value. -/
def pyContainsKey (v : JsonVal) (key : String) : Option Bool :=
  match v with
  | .obj kvs => some (kvs.any (fun kv => kv.1 == key))
  | .arr xs =>
    some (xs.any (fun x => match x with | .str s => s == key | _ => false))
  | .str s => some (strContains s key)
  | _ => none

/-- Python's item assignment DATA[key] = val (lines 90, 92): sets the key
on a dict (appending when absent), raises a TypeError (none) on every
other value. -/
def pySetItem (v : JsonVal) (key : String) (val : JsonVal) : Option JsonVal :=
  match v with
  | .obj kvs =>
    some (.obj (if kvs.any (fun kv => kv.1 == key)
                then kvs.map (fun kv => if kv.1 == key then (kv.1, val) else kv)
                else kvs ++ [(key, val)]))
  | _ => none

/-- The key normalization of lines 89-92, run on the value json.load
returned; none means one of the statements raised (handled at line 94). -/
def normalizeLoaded (v : JsonVal) : Option JsonVal :=
  match pyContainsKey v "promotion_message" with
  | none => none
  | some hasPromo =>
    match (if hasPromo then some v else pySetItem v "promotion_message" (.str "")) with
    | none => none
    | some v1 =>
      match pyContainsKey v1 "chats" with
      | none => none
      | some hasChats =>
        if hasChats then some v1 else pySetItem v1 "chats" (.obj [])

/-- The empty default DATA value (lines 84, 96). -/
def defaultData : JsonVal :=
  .obj [("promotion_message", .str ""), ("chats", .obj [])]

/-- load_data (lines 81-96). The file content is: none when the file does
not exist (line 83), some none when reading or json.load raises, and
some (some v) when it decodes to v. Every exception inside the try block
is caught at line 94 and replaced by the default; load_data itself is
total, modelling that the function never raises to its caller. -/
def load_data (content : Option (Option JsonVal)) : JsonVal :=
  match content with
  | none => defaultData
  | some none => defaultData
  | some (some v) => (normalizeLoaded v).getD defaultData

/-- Top-level key list of a decoded dict, used to discriminate values. -/
def topLevelKeys : JsonVal → List String
  | .obj kvs => kvs.map (fun kv => kv.1)
  | _ => []

/-- A stored user record with the given id, for concrete instances. -/
def uRec (i : Int) (name : String) : UserRec :=
  { id := i, full_name := name, username := none,
    approved_at := "2026-01-01T00:00:00" }

def c1Req : JoinReq :=
  { user_id := 7, full_name := "Alice", username := some "alice",
    chat_id := 100, channel_title := "News", approved_at := "2026-01-01T00:00:00" }

def c2Req : JoinReq :=
  { user_id := 7, full_name := "Bob", username := none,
    chat_id := 5, channel_title := "Club", approved_at := "2026-01-02T00:00:00" }

def c3Store : Store :=
  { promotion_message := "",
    chats := [("1", { title := "A", users := [uRec 42 "Zed"] }),
              ("2", { title := "B", users := [uRec 42 "Zed", uRec 9 "Kay"] })] }

def c6Store : Store :=
  { promotion_message := "",
    chats := [("9", { title := "C",
                      users := [uRec 1 "a", uRec 2 "b", uRec 3 "c",
                                uRec 4 "d", uRec 5 "e"] })] }

def c6SendOk : Int → Bool := fun uid => !(uid == 2 || uid == 4)

def c8Entry : ChatEntry := { title := "Old", users := [uRec 7 "Bob"] }

def c8Store : Store := { promotion_message := "", chats := [("5", c8Entry)] }

def c8ReqNew : JoinReq :=
  { user_id := 9, full_name := "New", username := none,
    chat_id := 5, channel_title := "Fresh", approved_at := "2026-01-03T00:00:00" }

def c8ReqOld : JoinReq :=
  { user_id := 7, full_name := "Bob", username := none,
    chat_id := 5, channel_title := "Fresh", approved_at := "2026-01-04T00:00:00" }

def c10Req : JoinReq :=
  { user_id := 0, full_name := "Ghost", username := none,
    chat_id := 77, channel_title := "Gated", approved_at := "2026-01-05T00:00:00" }

theorem usersOf_of_lookup_none {s : Store} {key : String}
    (h : lookupChat s key = none) : usersOf s key = [] := by
  unfold usersOf
  rw [h]
  rfl

theorem usersOf_of_lookup_some {s : Store} {key : String} {e : ChatEntry}
    (h : lookupChat s key = some e) : usersOf s key = e.users := by
  unfold usersOf
  rw [h]
  rfl

theorem lookup_map_set (l : List (String × ChatEntry)) (key : String) (e : ChatEntry) :
    ((l.map (fun kv => if kv.1 == key then (kv.1, e) else kv)).find?
        (fun kv => kv.1 == key)).map (fun kv => kv.2)
      = (l.find? (fun kv => kv.1 == key)).map (fun _ => e) := by
  induction l with
  | nil => rfl
  | cons kv t ih =>
    rw [List.map_cons]
    cases h : (kv.1 == key) with
    | true =>
      have hd : (if (true = true) then (kv.1, e) else kv) = (kv.1, e) := if_pos rfl
      rw [hd, List.find?_cons, List.find?_cons]
      simp only [h]
      rfl
    | false =>
      have hd : (if (false = true) then (kv.1, e) else kv) = kv := if_neg (by simp)
      rw [hd, List.find?_cons, List.find?_cons]
      simp only [h]
      exact ih

theorem lookup_append_absent (l : List (String × ChatEntry)) (key : String) (e : ChatEntry)
    (h : l.find? (fun kv => kv.1 == key) = none) :
    ((l ++ [(key, e)]).find? (fun kv => kv.1 == key)).map (fun kv => kv.2) = some e := by
  rw [List.find?_append, h]
  simp

theorem lookupChat_setChat (s : Store) (key : String) (e : ChatEntry) :
    lookupChat (setChat s key e) key = some e := by
  unfold setChat
  cases hf : s.chats.find? (fun kv => kv.1 == key) with
  | none =>
    show ((s.chats ++ [(key, e)]).find? (fun kv => kv.1 == key)).map (fun kv => kv.2)
        = some e
    exact lookup_append_absent _ _ _ hf
  | some kv =>
    show ((s.chats.map (fun kv => if kv.1 == key then (kv.1, e) else kv)).find?
        (fun kv => kv.1 == key)).map (fun kv => kv.2) = some e
    rw [lookup_map_set, hf]
    rfl

theorem fst_persistStep (s : Store) (r : JoinReq) :
    (persistStep s r).1 = setChat s (chatKey r) (entryAfter s r) := by
  cases h : lookupChat s (chatKey r) with
  | none =>
    simp only [persistStep, h, entryAfter, usersOf_of_lookup_none h]
  | some e =>
    simp only [persistStep, h, entryAfter, usersOf_of_lookup_some h]

/-- After the persist stage the target key maps to an entry whose title is
the request's title and whose users list is the old one, extended by the
new record exactly when the id was absent and truthy. -/
theorem lookupChat_persistStep (s : Store) (r : JoinReq) :
    lookupChat (persistStep s r).1 (chatKey r) = some (entryAfter s r) := by
  rw [fst_persistStep]
  exact lookupChat_setChat _ _ _

theorem usersOf_persistStep (s : Store) (r : JoinReq) :
    usersOf (persistStep s r).1 (chatKey r) = (entryAfter s r).users := by
  unfold usersOf
  rw [lookupChat_persistStep]
  rfl

theorem title_entryAfter (s : Store) (r : JoinReq) :
    (entryAfter s r).title = r.channel_title := by
  unfold entryAfter
  split <;> rfl

theorem titleOf_persistStep (s : Store) (r : JoinReq) :
    titleOf (persistStep s r).1 (chatKey r) = some r.channel_title := by
  unfold titleOf
  rw [lookupChat_persistStep]
  show some (entryAfter s r).title = some r.channel_title
  rw [title_entryAfter]

theorem snd_persistStep (s : Store) (r : JoinReq) :
    (persistStep s r).2
      = (!((usersOf s (chatKey r)).any (fun u => u.id == r.user_id))
          && !(r.user_id == 0)) := by
  cases h : lookupChat s (chatKey r) with
  | none =>
    simp only [persistStep, h, usersOf_of_lookup_none h]
  | some e =>
    simp only [persistStep, h, usersOf_of_lookup_some h]

theorem users_entryAfter_present (s : Store) (r : JoinReq)
    (h : (usersOf s (chatKey r)).any (fun u => u.id == r.user_id) = true) :
    (entryAfter s r).users = usersOf s (chatKey r) := by
  simp [entryAfter, h]

theorem users_entryAfter_zero (s : Store) (r : JoinReq) (h : r.user_id = 0) :
    (entryAfter s r).users = usersOf s (chatKey r) := by
  simp [entryAfter, h]

theorem users_entryAfter_new (s : Store) (r : JoinReq)
    (h1 : (usersOf s (chatKey r)).any (fun u => u.id == r.user_id) = false)
    (h2 : r.user_id ≠ 0) :
    (entryAfter s r).users = usersOf s (chatKey r) ++ [mkRec r] := by
  simp [entryAfter, h1, h2]

theorem countId_append (l1 l2 : List UserRec) (i : Int) :
    countId (l1 ++ l2) i = countId l1 i + countId l2 i := by
  simp [countId, List.countP_append]

theorem countId_mkRec (r : JoinReq) : countId [mkRec r] r.user_id = 1 := by
  simp [countId, mkRec, List.countP_cons]

theorem countId_zero_of_any_false {l : List UserRec} {i : Int}
    (h : l.any (fun u => u.id == i) = false) : countId l i = 0 := by
  rw [countId, List.countP_eq_zero]
  intro u hu
  have := List.any_eq_false.mp h u hu
  simpa using this

theorem countId_pos_of_any_true {l : List UserRec} {i : Int}
    (h : l.any (fun u => u.id == i) = true) : 0 < countId l i := by
  rw [countId, List.countP_pos_iff]
  simpa using List.any_eq_true.mp h

/-- One persist step drives the duplicate count for the request's own
identity to exactly one, provided it was at most one before. -/
theorem countId_persistStep (s : Store) (r : JoinReq) (h0 : r.user_id ≠ 0)
    (hle : countId (usersOf s (chatKey r)) r.user_id ≤ 1) :
    countId (usersOf (persistStep s r).1 (chatKey r)) r.user_id = 1 := by
  rw [usersOf_persistStep]
  cases hany : (usersOf s (chatKey r)).any (fun u => u.id == r.user_id) with
  | false =>
    rw [users_entryAfter_new s r hany h0, countId_append,
        countId_zero_of_any_false hany, countId_mkRec]
  | true =>
    rw [users_entryAfter_present s r hany]
    have hpos := countId_pos_of_any_true hany
    omega

theorem applyAll_nil (s : Store) : applyAll s [] = s := rfl

theorem applyAll_cons (s : Store) (r : JoinReq) (t : List JoinReq) :
    applyAll s (r :: t) = applyAll (persistStep s r).1 t := rfl

/-- The duplicate count one stays one across any further same-identity
persist steps. -/
theorem countId_applyAll_one (c i : Int) (h0 : i ≠ 0) :
    ∀ (reqs : List JoinReq) (s : Store),
      (∀ r ∈ reqs, r.chat_id = c ∧ r.user_id = i) →
      countId (usersOf s (toString c)) i = 1 →
      countId (usersOf (applyAll s reqs) (toString c)) i = 1 := by
  intro reqs
  induction reqs with
  | nil => intro s _ h1; simpa [applyAll_nil] using h1
  | cons r t ih =>
    intro s hall h1
    have hr := hall r (List.mem_cons_self r t)
    have hkey : chatKey r = toString c := by rw [chatKey, hr.1]
    have h0r : r.user_id ≠ 0 := by rw [hr.2]; exact h0
    have hle : countId (usersOf s (chatKey r)) r.user_id ≤ 1 := by
      rw [hkey, hr.2]
      exact h1.le
    have hstep := countId_persistStep s r h0r hle
    rw [hkey, hr.2] at hstep
    rw [applyAll_cons]
    exact ih (persistStep s r).1 (fun x hx => hall x (List.mem_cons_of_mem _ hx)) hstep

theorem mem_addRecipient {acc : List Int} {uid x : Int} :
    x ∈ addRecipient acc uid ↔ x ∈ acc ∨ x = uid := by
  unfold addRecipient
  split
  · next h =>
    constructor
    · exact Or.inl
    · rintro (hx | rfl)
      · exact hx
      · exact h
  · next h => simp [List.mem_append]

theorem nodup_addRecipient {acc : List Int} {uid : Int} (h : acc.Nodup) :
    (addRecipient acc uid).Nodup := by
  unfold addRecipient
  split
  · exact h
  · next hn => simp [List.nodup_append, h, hn]

theorem mem_collectFromUsers :
    ∀ (users : List UserRec) (acc : List Int) (x : Int),
      x ∈ collectFromUsers acc users ↔ x ∈ acc ∨ ∃ u ∈ users, u.id = x := by
  intro users
  induction users with
  | nil => intro acc x; simp [collectFromUsers]
  | cons u t ih =>
    intro acc x
    rw [show collectFromUsers acc (u :: t)
          = collectFromUsers (addRecipient acc u.id) t from rfl, ih,
        mem_addRecipient]
    constructor
    · rintro ((hx | rfl) | ⟨v, hv, rfl⟩)
      · exact Or.inl hx
      · exact Or.inr ⟨u, List.mem_cons_self u t, rfl⟩
      · exact Or.inr ⟨v, List.mem_cons_of_mem _ hv, rfl⟩
    · rintro (hx | ⟨v, hv, rfl⟩)
      · exact Or.inl (Or.inl hx)
      · rcases List.mem_cons.mp hv with rfl | hv'
        · exact Or.inl (Or.inr rfl)
        · exact Or.inr ⟨v, hv', rfl⟩

theorem nodup_collectFromUsers :
    ∀ (users : List UserRec) (acc : List Int), acc.Nodup →
      (collectFromUsers acc users).Nodup := by
  intro users
  induction users with
  | nil => intro acc h; exact h
  | cons u t ih => intro acc h; exact ih _ (nodup_addRecipient h)

theorem mem_collectFromChats :
    ∀ (chats : List (String × ChatEntry)) (acc : List Int) (x : Int),
      x ∈ collectFromChats acc chats
        ↔ x ∈ acc ∨ ∃ kv ∈ chats, ∃ u ∈ kv.2.users, u.id = x := by
  intro chats
  induction chats with
  | nil => intro acc x; simp [collectFromChats]
  | cons kv t ih =>
    intro acc x
    rw [show collectFromChats acc (kv :: t)
          = collectFromChats (collectFromUsers acc kv.2.users) t from rfl, ih,
        mem_collectFromUsers]
    constructor
    · rintro ((hx | hu) | ⟨kw, hkw, hu⟩)
      · exact Or.inl hx
      · exact Or.inr ⟨kv, List.mem_cons_self kv t, hu⟩
      · exact Or.inr ⟨kw, List.mem_cons_of_mem _ hkw, hu⟩
    · rintro (hx | ⟨kw, hkw, hu⟩)
      · exact Or.inl (Or.inl hx)
      · rcases List.mem_cons.mp hkw with rfl | hkw'
        · exact Or.inl (Or.inr hu)
        · exact Or.inr ⟨kw, hkw', hu⟩

theorem nodup_collectFromChats :
    ∀ (chats : List (String × ChatEntry)) (acc : List Int), acc.Nodup →
      (collectFromChats acc chats).Nodup := by
  intro chats
  induction chats with
  | nil => intro acc h; exact h
  | cons kv t ih => intro acc h; exact ih _ (nodup_collectFromUsers _ _ h)

theorem mem_collectRecipients (s : Store) (x : Int) :
    x ∈ collectRecipients s ↔ ∃ kv ∈ s.chats, ∃ u ∈ kv.2.users, u.id = x := by
  rw [collectRecipients, mem_collectFromChats]
  simp

theorem nodup_collectRecipients (s : Store) : (collectRecipients s).Nodup :=
  nodup_collectFromChats s.chats [] List.nodup_nil

/-- The tally loop counts successes and failures of the recipient list. -/
theorem foldl_tallyStep (sendOk : Int → Bool) :
    ∀ (l : List Int) (a b : Nat),
      l.foldl (tallyStep sendOk) (a, b)
        = (a + l.countP (fun u => sendOk u), b + l.countP (fun u => !sendOk u)) := by
  intro l
  induction l with
  | nil => intro a b; simp
  | cons x t ih =>
    intro a b
    rw [List.foldl_cons]
    cases h : sendOk x with
    | true =>
      rw [show tallyStep sendOk (a, b) x = (a + 1, b) from by simp [tallyStep, h], ih]
      simp [List.countP_cons, h, Prod.ext_iff]
      omega
    | false =>
      rw [show tallyStep sendOk (a, b) x = (a, b + 1) from by simp [tallyStep, h], ih]
      simp [List.countP_cons, h, Prod.ext_iff]
      omega

theorem countP_add_countP_not (p : Int → Bool) :
    ∀ l : List Int, l.countP p + l.countP (fun a => !p a) = l.length := by
  intro l
  induction l with
  | nil => simp
  | cons x t ih =>
    cases h : p x with
    | true => simp [List.countP_cons, h]; omega
    | false => simp [List.countP_cons, h]; omega

/-- Every sleep interval of the supervisory loop stays at or below the
ceiling, whatever the outcome sequence, as long as the starting backoff
does. -/
theorem runnerSleeps_le :
    ∀ (os : List PollOutcome) (b : Nat), b ≤ 120 →
      ∀ x ∈ runnerSleeps os b, x ≤ 120 := by
  intro os
  induction os with
  | nil => intro b _ x hx; simp [runnerSleeps] at hx
  | cons o t ih =>
    intro b hb x hx
    cases o with
    | clean => simp [runnerSleeps] at hx
    | conflict =>
      rw [runnerSleeps] at hx
      rcases List.mem_cons.mp hx with rfl | hx'
      · exact hb
      · exact ih _ (Nat.min_le_right _ _) x hx'
    | fault =>
      rw [runnerSleeps] at hx
      rcases List.mem_cons.mp hx with rfl | hx'
      · exact hb
      · exact ih _ (Nat.min_le_right _ _) x hx'

/-- Claim C1 counterexample: the code does not abort on approval failure.
With the gateway's approve operation failing (approveOk = false) on a fresh
store, a membership record is nevertheless written for the request's chat
and the direct-message notification is attempted. -/
theorem C1_counterexample :
    usersOf emptyStore (chatKey c1Req) = []
    ∧ usersOf (handle_join_request emptyStore c1Req false true).store (chatKey c1Req)
        = [mkRec c1Req]
    ∧ (handle_join_request emptyStore c1Req false true).dmAttempted = true := by
  refine ⟨rfl, ?_, rfl⟩
  rfl

/-- Claim C1 (amended): when the gateway's approve operation raises, the
error is caught and logged (lines 239-242) and the pipeline continues
unchanged — the same record is persisted, the save is attempted, and the
same notification path is taken as when approval succeeds. -/
theorem C1_approve_failure_continues (s : Store) (r : JoinReq) (dmSendOk : Bool) :
    (handle_join_request s r false dmSendOk).store
        = (handle_join_request s r true dmSendOk).store
    ∧ (handle_join_request s r false dmSendOk).inserted
        = (handle_join_request s r true dmSendOk).inserted
    ∧ (handle_join_request s r false dmSendOk).saveAttempted = true
    ∧ (handle_join_request s r false dmSendOk).dmAttempted
        = (handle_join_request s r true dmSendOk).dmAttempted
    ∧ (handle_join_request s r false dmSendOk).fallbackCount
        = (handle_join_request s r true dmSendOk).fallbackCount
    ∧ (handle_join_request s r false dmSendOk).approveErrorLogged = true :=
  ⟨rfl, rfl, rfl, rfl, rfl, rfl⟩

/-- Claim C2: over any nonempty sequence of join requests all carrying the
same chat id and the same nonzero identity, starting from a store whose
entry holds at most one record for that identity, the final users list
holds exactly one record for it; moreover a repeated insertion for an
already-present identity leaves the users list unchanged and reports that
nothing was inserted. -/
theorem C2_no_duplicate_records (reqs : List JoinReq) (s : Store) (c i : Int)
    (h0 : i ≠ 0) (hne : reqs ≠ [])
    (hall : ∀ r ∈ reqs, r.chat_id = c ∧ r.user_id = i)
    (hinv : countId (usersOf s (toString c)) i ≤ 1) :
    countId (usersOf (applyAll s reqs) (toString c)) i = 1
    ∧ ∀ (st : Store) (r : JoinReq), r.chat_id = c → r.user_id = i →
        (usersOf st (toString c)).any (fun u => u.id == i) = true →
        usersOf (persistStep st r).1 (toString c) = usersOf st (toString c)
        ∧ (persistStep st r).2 = false := by
  constructor
  · rcases reqs with _ | ⟨r, t⟩
    · exact absurd rfl hne
    · have hr := hall r (List.mem_cons_self r t)
      have hkey : chatKey r = toString c := by rw [chatKey, hr.1]
      have h0r : r.user_id ≠ 0 := by rw [hr.2]; exact h0
      have hle : countId (usersOf s (chatKey r)) r.user_id ≤ 1 := by
        rw [hkey, hr.2]; exact hinv
      have hstep := countId_persistStep s r h0r hle
      rw [hkey, hr.2] at hstep
      rw [applyAll_cons]
      exact countId_applyAll_one c i h0 t (persistStep s r).1
        (fun x hx => hall x (List.mem_cons_of_mem _ hx)) hstep
  · intro st r h1 h2 hany
    have hkey : chatKey r = toString c := by rw [chatKey, h1]
    have hany' : (usersOf st (chatKey r)).any (fun u => u.id == r.user_id) = true := by
      rw [hkey, h2]; exact hany
    constructor
    · rw [← hkey, usersOf_persistStep, users_entryAfter_present st r hany']
    · rw [snd_persistStep, hany']
      rfl

theorem C2_no_duplicate_records_witness :
    countId (usersOf (applyAll emptyStore [c2Req, c2Req]) (toString (5 : Int))) 7 = 1 :=
  (C2_no_duplicate_records [c2Req, c2Req] emptyStore 5 7 (by decide) (by decide)
    (by decide) (by decide)).1

/-- Claim C3: when an identity is a member of two different spaces, the
broadcast recipient collection contains it exactly once, so a single
broadcast invocation sends to it exactly once. -/
theorem C3_broadcast_dedup (s : Store) (uid : Int) (k1 k2 : String)
    (e1 e2 : ChatEntry) (_hk : k1 ≠ k2)
    (h1 : (k1, e1) ∈ s.chats) (_h2 : (k2, e2) ∈ s.chats)
    (hm1 : ∃ u ∈ e1.users, u.id = uid) (_hm2 : ∃ u ∈ e2.users, u.id = uid) :
    (collectRecipients s).count uid = 1 := by
  have hmem : uid ∈ collectRecipients s :=
    (mem_collectRecipients s uid).mpr ⟨(k1, e1), h1, hm1⟩
  exact List.count_eq_one_of_mem (nodup_collectRecipients s) hmem

theorem C3_broadcast_dedup_witness : (collectRecipients c3Store).count 42 = 1 :=
  C3_broadcast_dedup c3Store 42 "1" "2"
    { title := "A", users := [uRec 42 "Zed"] }
    { title := "B", users := [uRec 42 "Zed", uRec 9 "Kay"] }
    (by decide) (by decide) (by decide) (by decide) (by decide)

/-- Claim C4: for a request with a real (nonzero) identity, when the
direct send raises, the public space-post fallback is invoked exactly
once; when the direct send succeeds, the fallback is not invoked. -/
theorem C4_dm_fallback (s : Store) (r : JoinReq) (h : r.user_id ≠ 0) :
    (handle_join_request s r true false).dmAttempted = true
    ∧ (handle_join_request s r true false).fallbackCount = 1
    ∧ (handle_join_request s r true true).fallbackCount = 0 := by
  have hbeq : (r.user_id == 0) = false := beq_eq_false_iff_ne.mpr h
  refine ⟨?_, ?_, ?_⟩ <;> simp [handle_join_request, hbeq]

theorem C4_dm_fallback_witness :
    (handle_join_request emptyStore c1Req true false).fallbackCount = 1
    ∧ (handle_join_request emptyStore c1Req true true).fallbackCount = 0 :=
  ⟨(C4_dm_fallback emptyStore c1Req (by decide)).2.1,
   (C4_dm_fallback emptyStore c1Req (by decide)).2.2⟩

/-- Claim C5: the supervisory loop sleeps 5, 10, 20 over three consecutive
conflict faults, every sleep interval ever produced is at most 120, and on
any non-clean outcome the loop sleeps the current backoff and doubles it
capped at 120. -/
theorem C5_backoff_growth :
    mainSleeps [PollOutcome.conflict, PollOutcome.conflict, PollOutcome.conflict]
      = [5, 10, 20]
    ∧ (∀ (os : List PollOutcome) (x : Nat), x ∈ mainSleeps os → x ≤ 120)
    ∧ (∀ (o : PollOutcome) (rest : List PollOutcome) (b : Nat),
        o ≠ PollOutcome.clean →
        runnerSleeps (o :: rest) b = b :: runnerSleeps rest (min (b * 2) 120)) := by
  refine ⟨rfl, ?_, ?_⟩
  · intro os x hx
    exact runnerSleeps_le os 5 (by omega) x hx
  · intro o rest b ho
    cases o with
    | clean => exact absurd rfl ho
    | conflict => rfl
    | fault => rfl

theorem C5_backoff_growth_witness :
    (5 ∈ mainSleeps [PollOutcome.fault] ∧ 5 ≤ 120)
    ∧ runnerSleeps [PollOutcome.conflict] 7
        = 7 :: runnerSleeps [] (min (7 * 2) 120) :=
  ⟨⟨by decide, C5_backoff_growth.2.1 [PollOutcome.fault] 5 (by decide)⟩,
   C5_backoff_growth.2.2 PollOutcome.conflict [] 7 (by decide)⟩

/-- Claim C6: the broadcast loop tallies every recipient as either sent or
failed (the counts sum to the recipient count and equal the number of
successful and failed sends), and with 5 recipients of which 2 fail it
returns (3, 2). The loop and its result are total: no send failure
escapes. -/
theorem C6_partial_failure (s : Store) (sendOk : Int → Bool) :
    (broadcast_cmd s sendOk).1 + (broadcast_cmd s sendOk).2
        = (collectRecipients s).length
    ∧ broadcast_cmd s sendOk
        = ((collectRecipients s).countP (fun u => sendOk u),
           (collectRecipients s).countP (fun u => !sendOk u))
    ∧ ((collectRecipients s).length = 5 →
        (collectRecipients s).countP (fun u => !sendOk u) = 2 →
        broadcast_cmd s sendOk = (3, 2)) := by
  have hb : broadcast_cmd s sendOk
      = ((collectRecipients s).countP (fun u => sendOk u),
         (collectRecipients s).countP (fun u => !sendOk u)) := by
    rw [broadcast_cmd, foldl_tallyStep]
    simp
  have hadd : (collectRecipients s).countP (fun u => sendOk u)
      + (collectRecipients s).countP (fun u => !sendOk u)
      = (collectRecipients s).length := countP_add_countP_not _ _
  refine ⟨?_, hb, ?_⟩
  · rw [hb]
    exact hadd
  · intro h5 h2
    have hok : (collectRecipients s).countP (fun u => sendOk u) = 3 := by omega
    rw [hb, hok, h2]

theorem C6_partial_failure_witness :
    (collectRecipients c6Store).length = 5
    ∧ (collectRecipients c6Store).countP (fun u => !c6SendOk u) = 2
    ∧ broadcast_cmd c6Store c6SendOk = (3, 2) :=
  ⟨by decide, by decide,
   (C6_partial_failure c6Store c6SendOk).2.2 (by decide) (by decide)⟩

theorem normalizeLoaded_obj (kvs : List (String × JsonVal)) :
    ∃ kvs', normalizeLoaded (JsonVal.obj kvs) = some (JsonVal.obj kvs') := by
  cases h1 : kvs.any (fun kv => kv.1 == "promotion_message") with
  | true =>
    cases h2 : kvs.any (fun kv => kv.1 == "chats") with
    | true =>
      exact ⟨kvs, by simp [normalizeLoaded, pyContainsKey, h1, h2]⟩
    | false =>
      exact ⟨kvs ++ [("chats", JsonVal.obj [])],
             by simp [normalizeLoaded, pyContainsKey, pySetItem, h1, h2]⟩
  | false =>
    cases h2 : (kvs ++ [("promotion_message", JsonVal.str "")]).any
        (fun kv => kv.1 == "chats") with
    | true =>
      exact ⟨kvs ++ [("promotion_message", JsonVal.str "")],
             by simp [normalizeLoaded, pyContainsKey, pySetItem, h1, h2]⟩
    | false =>
      exact ⟨(kvs ++ [("promotion_message", JsonVal.str "")]) ++ [("chats", JsonVal.obj [])],
             by simp [normalizeLoaded, pyContainsKey, pySetItem, h1, h2]⟩

/-- Claim C7 counterexample: a decoded dict that is not of the expected
structure is not replaced by the empty default — loading a file containing
the JSON object with the single key "chats" bound to the number 5 yields
that object with a promotion_message key appended, not the default. -/
theorem C7_counterexample :
    load_data (some (some (JsonVal.obj [("chats", JsonVal.num 5)]))) ≠ defaultData := by
  intro h
  have hk := congrArg topLevelKeys h
  exact absurd hk (by decide)

/-- Claim C7 (amended): loading never raises (load_data is total), and a
missing file, undecodable content, or decoded content on which the key
probes raise (a number, a boolean, null) yields the empty default store;
decoded dict content, however, is kept as a dict — with missing top-level
keys filled in — rather than replaced by the empty default. -/
theorem C7_load_resilience :
    load_data none = defaultData
    ∧ load_data (some none) = defaultData
    ∧ (∀ n : Int, load_data (some (some (JsonVal.num n))) = defaultData)
    ∧ (∀ b : Bool, load_data (some (some (JsonVal.bool b))) = defaultData)
    ∧ load_data (some (some JsonVal.null)) = defaultData
    ∧ (∀ kvs : List (String × JsonVal), ∃ kvs',
        load_data (some (some (JsonVal.obj kvs))) = JsonVal.obj kvs') := by
  refine ⟨rfl, rfl, fun n => rfl, fun b => rfl, rfl, ?_⟩
  intro kvs
  obtain ⟨kvs', h⟩ := normalizeLoaded_obj kvs
  exact ⟨kvs', by simp [load_data, h]⟩

/-- Claim C8 counterexample: an insertion into an already-known space with
a yet-unknown identity does change the members list (the record is
appended), so "leaving its members list unchanged" fails as a universal
statement about insertions into known spaces. -/
theorem C8_counterexample :
    lookupChat c8Store (chatKey c8ReqNew) = some c8Entry
    ∧ usersOf (persistStep c8Store c8ReqNew).1 (chatKey c8ReqNew)
        ≠ usersOf c8Store (chatKey c8ReqNew) := by
  refine ⟨rfl, ?_⟩
  decide

/-- Claim C8 (amended): an insertion into a known space always rewrites
the entry's title to the supplied value; the members list is untouched
when the identity is already present (and the step reports no insertion),
and is extended by exactly the one new record when the identity is absent
and nonzero. -/
theorem C8_title_freshness (s : Store) (r : JoinReq) (e : ChatEntry)
    (hpresent : lookupChat s (chatKey r) = some e) :
    titleOf (persistStep s r).1 (chatKey r) = some r.channel_title
    ∧ ((e.users.any (fun u => u.id == r.user_id)) = true →
        usersOf (persistStep s r).1 (chatKey r) = e.users
        ∧ (persistStep s r).2 = false)
    ∧ ((e.users.any (fun u => u.id == r.user_id)) = false → r.user_id ≠ 0 →
        usersOf (persistStep s r).1 (chatKey r) = e.users ++ [mkRec r]) := by
  have husers : usersOf s (chatKey r) = e.users := usersOf_of_lookup_some hpresent
  refine ⟨titleOf_persistStep s r, ?_, ?_⟩
  · intro hany
    have hany' : (usersOf s (chatKey r)).any (fun u => u.id == r.user_id) = true := by
      rw [husers]; exact hany
    constructor
    · rw [usersOf_persistStep, users_entryAfter_present s r hany', husers]
    · rw [snd_persistStep, hany']
      rfl
  · intro hany h0
    have hany' : (usersOf s (chatKey r)).any (fun u => u.id == r.user_id) = false := by
      rw [husers]; exact hany
    rw [usersOf_persistStep, users_entryAfter_new s r hany' h0, husers]

theorem C8_title_freshness_witness :
    titleOf (persistStep c8Store c8ReqOld).1 (chatKey c8ReqOld)
        = some c8ReqOld.channel_title
    ∧ usersOf (persistStep c8Store c8ReqOld).1 (chatKey c8ReqOld) = c8Entry.users :=
  ⟨(C8_title_freshness c8Store c8ReqOld c8Entry (by decide)).1,
   ((C8_title_freshness c8Store c8ReqOld c8Entry (by decide)).2.1 (by decide)).1⟩

/-- Claim C9: a failed disk write is swallowed — the mutate-then-save
operations return normally with the same in-memory store as on a
successful write (no rollback); the failure is only logged. -/
theorem C9_save_failure_swallowed (s : Store) (r : JoinReq) (msg : String) :
    (recordJoinAndSave s r false).1 = (recordJoinAndSave s r true).1
    ∧ (setPromotionAndSave s msg false).1 = (setPromotionAndSave s msg true).1
    ∧ (recordJoinAndSave s r false).2.1 = none
    ∧ (save_data s false).2 = true ∧ (save_data s true).2 = false :=
  ⟨rfl, rfl, rfl, rfl, rfl⟩

/-- Claim C10: for a join request whose identity is falsy (0), the persist
stage appends no member record and reports no insertion, yet the space
entry is still created or its title refreshed and the save is still
attempted; the direct message is skipped and the fallback mention path is
taken. -/
theorem C10_falsy_identity (s : Store) (r : JoinReq) (approveOk dmSendOk : Bool)
    (h : r.user_id = 0) :
    usersOf (handle_join_request s r approveOk dmSendOk).store (chatKey r)
        = usersOf s (chatKey r)
    ∧ (handle_join_request s r approveOk dmSendOk).inserted = false
    ∧ titleOf (handle_join_request s r approveOk dmSendOk).store (chatKey r)
        = some r.channel_title
    ∧ (handle_join_request s r approveOk dmSendOk).saveAttempted = true
    ∧ (handle_join_request s r approveOk dmSendOk).dmAttempted = false
    ∧ (handle_join_request s r approveOk dmSendOk).fallbackCount = 1 := by
  have hbeq : (r.user_id == 0) = true := by rw [h]; rfl
  have hstore : (handle_join_request s r approveOk dmSendOk).store
      = (persistStep s r).1 := rfl
  refine ⟨?_, ?_, ?_, rfl, ?_, ?_⟩
  · rw [hstore, usersOf_persistStep, users_entryAfter_zero s r h]
  · show (persistStep s r).2 = false
    rw [snd_persistStep, hbeq]
    simp
  · rw [hstore]
    exact titleOf_persistStep s r
  · show (!(r.user_id == 0)) = false
    rw [hbeq]
    rfl
  · show (if ((!(r.user_id == 0)) && dmSendOk) = true then 0 else 1) = 1
    rw [hbeq]
    simp

theorem C10_falsy_identity_witness :
    usersOf (handle_join_request emptyStore c10Req true true).store (chatKey c10Req)
        = usersOf emptyStore (chatKey c10Req)
    ∧ (handle_join_request emptyStore c10Req true true).fallbackCount = 1 :=
  ⟨(C10_falsy_identity emptyStore c10Req true true (by decide)).1,
   (C10_falsy_identity emptyStore c10Req true true (by decide)).2.2.2.2.2⟩
